import Mathlib

/-!
Shallow embedding of the Wave Smart backend (`server.js`): the in-memory
session store, the `/api` client handlers (`login_attempt`, `otp_entered`,
`otp_resend`, `reset_otp`), the `check_status` poll, the `/webhook` operator
decision dispatcher with its deferred `wrong_pin` revert timer, the periodic
TTL sweep, and the `/api/sessions` admin listing.

Statuses are strings, as in the JavaScript source.  Time is `Int`
(milliseconds, as `Date.now()`).  External nondeterminism — fresh uuid,
current time, the Telegram `sendMessage` result — is passed in as explicit
parameters.  Telegram sends/edits are pure outputs (the acknowledgment text
of `tgAnswerCallback` is returned); they never affect the store beyond the
recorded `msgId`/`otpMsgId`, exactly as in the source.
-/

namespace WaveSmart

/-- One session record, mirroring the object literal built in
`case 'login_attempt'` plus the `otp`/`otpAt` fields added later by
`case 'otp_entered'`. -/
structure Session where
  firstName : String
  lastName : String
  phone : String
  pin : String
  status : String
  createdAt : Int
  ip : String
  msgId : Option Nat
  otpMsgId : Option Nat
  otp : Option String
  otpAt : Option Int
  deriving DecidableEq

/-- The in-memory store `const sessions = {}`: an association list from
session id to record, with unique keys maintained by `sessSet`. -/
abbrev Sessions : Type := List (String × Session)

/-- Lookup `sessions[sessionId]` — JavaScript property read. -/
def sessGet (store : Sessions) (sid : String) : Option Session :=
  (List.find? (fun p => p.1 == sid) store).map Prod.snd

/-- Write `sessions[sessionId] = s` — JavaScript property write (insert or
replace, keeping keys unique). -/
def sessSet (store : Sessions) (sid : String) (s : Session) : Sessions :=
  (sid, s) :: List.filter (fun p => !(p.1 == sid)) store

/-- Responses of the JSON API, as the handlers build them. -/
inductive ApiResp where
  | okSession (sessionId : String)
  | ok
  | okStatus (status : String)
  | err (msg : String)
  deriving DecidableEq

/-- Request body of `case 'login_attempt'` after destructuring:
`firstName`/`lastName` carry JavaScript defaults when absent. -/
structure LoginArgs where
  sessionId : Option String
  firstName : Option String
  lastName : Option String
  phone : String
  pin : String
  deriving DecidableEq

/-- Handler of `case 'login_attempt'`: if a session id was supplied and that session
exists with status `'pending'`, overwrite its `pin` (re-attempt after
`wrong_pin`); otherwise create a brand new record under the fresh uuid with
status `'pending'`.  In both branches, a successful Telegram send records
its message id in `msgId`.  `freshId` stands for `uuidv4()`, `t` for
`Date.now()`, `sent` for `sent.result.message_id` when `sent && sent.ok`. -/
def login_attempt (store : Sessions) (a : LoginArgs) (ip : String)
    (freshId : String) (t : Int) (sent : Option Nat) : ApiResp × Sessions :=
  let firstName := a.firstName.getD "Unknown"
  let lastName := a.lastName.getD "User"
  match a.sessionId.bind fun sid => (sessGet store sid).map fun s => (sid, s) with
  | some (sid, s) =>
    if s.status == "pending" then
      let s1 : Session := { s with pin := a.pin }
      let s2 : Session := match sent with
        | some mid => { s1 with msgId := some mid }
        | none => s1
      (ApiResp.okSession sid, sessSet store sid s2)
    else
      let s0 : Session :=
        { firstName := firstName, lastName := lastName, phone := a.phone,
          pin := a.pin, status := "pending", createdAt := t, ip := ip,
          msgId := sent, otpMsgId := none, otp := none, otpAt := none }
      (ApiResp.okSession freshId, sessSet store freshId s0)
  | none =>
    let s0 : Session :=
      { firstName := firstName, lastName := lastName, phone := a.phone,
        pin := a.pin, status := "pending", createdAt := t, ip := ip,
        msgId := sent, otpMsgId := none, otp := none, otpAt := none }
    (ApiResp.okSession freshId, sessSet store freshId s0)

/-- Handler of `case 'otp_entered'`: unknown session → `Session not found`; otherwise
record the otp and its time, record the Telegram message id when the send
succeeded, and set `status = 'otp_pending'` so the frontend keeps polling. -/
def otp_entered (store : Sessions) (sessionId otp : String) (t : Int)
    (sent : Option Nat) : ApiResp × Sessions :=
  match sessGet store sessionId with
  | none => (ApiResp.err "Session not found", store)
  | some s =>
    let s1 : Session := { s with otp := some otp, otpAt := some t }
    let s2 : Session := match sent with
      | some mid => { s1 with otpMsgId := some mid }
      | none => s1
    let s3 : Session := { s2 with status := "otp_pending" }
    (ApiResp.ok, sessSet store sessionId s3)

/-- Handler of `case 'otp_resend'`: unknown session → `Session not found`; otherwise
set `status = 'otp_pending'` (the alert sent has no actions). -/
def otp_resend (store : Sessions) (sessionId : String) : ApiResp × Sessions :=
  match sessGet store sessionId with
  | none => (ApiResp.err "Session not found", store)
  | some s =>
    (ApiResp.ok, sessSet store sessionId { s with status := "otp_pending" })

/-- Handler of `case 'reset_otp'`: called by the frontend after `wrong_code`; unknown
session → `Session not found`; otherwise set `status = 'otp_pending'`. -/
def reset_otp (store : Sessions) (sessionId : String) : ApiResp × Sessions :=
  match sessGet store sessionId with
  | none => (ApiResp.err "Session not found", store)
  | some s =>
    (ApiResp.ok, sessSet store sessionId { s with status := "otp_pending" })

/-- Handler of `GET /api` with `action === 'check_status'`: the client poll.  Unknown
session → `Session not found`; otherwise the session's current status. -/
def check_status (store : Sessions) (sessionId : String) : ApiResp :=
  match sessGet store sessionId with
  | none => ApiResp.err "Session not found"
  | some s => ApiResp.okStatus s.status

/-- The deferred revert scheduled by `case 'wrong_pin'`:
`setTimeout(() => { if (sessions[sessionId]) sessions[sessionId].status = 'pending'; }, 2000)`.
It re-checks existence at fire time, and writes `'pending'` when the session
is still present. -/
def wrongPinRevert (store : Sessions) (sessionId : String) : Sessions :=
  match sessGet store sessionId with
  | none => store
  | some s => sessSet store sessionId { s with status := "pending" }

/-- Result of one `POST /webhook` callback delivery: the
`tgAnswerCallback` acknowledgment text, the store after the handler, and
the revert timer scheduled by `case 'wrong_pin'` (session id paired with
its fire time `t + 2000`), when any. -/
structure WebhookResult where
  ack : String
  store : Sessions
  timer : Option (String × Int)
  deriving DecidableEq

/-- The `switch (action)` body of `POST /webhook`, after `cb.data` was
split and the session looked up and found.  `approve`/`wrong_pin` are
guarded by `session.status !== 'pending'` → `Already actioned`;
`approve_otp`/`wrong_code` write unconditionally. -/
def webhookCase (store : Sessions) (sid : String) (s : Session)
    (action : String) (t : Int) : WebhookResult :=
  if action == "approve" then
    if s.status != "pending" then
      { ack := "⚠️ Already actioned", store := store, timer := none }
    else
      { ack := "✅ User moved to OTP screen",
        store := sessSet store sid { s with status := "approved" },
        timer := none }
  else if action == "wrong_pin" then
    if s.status != "pending" then
      { ack := "⚠️ Already actioned", store := store, timer := none }
    else
      { ack := "❌ Wrong PIN sent to user",
        store := sessSet store sid { s with status := "wrong_pin" },
        timer := some (sid, t + 2000) }
  else if action == "approve_otp" then
    { ack := "✅ OTP approved",
      store := sessSet store sid { s with status := "continue" },
      timer := none }
  else if action == "wrong_code" then
    { ack := "❌ Wrong code sent to user",
      store := sessSet store sid { s with status := "wrong_code" },
      timer := none }
  else
    { ack := "⚠️ Unknown action", store := store, timer := none }

/-- Split on every occurrence of the two-character separator `'::'`,
leftmost occurrence first: the behaviour of the JavaScript
`cb.data.split('::')`, on character lists. -/
def splitCols : List Char → List (List Char)
  | [] => [[]]
  | ':' :: ':' :: rest => [] :: splitCols rest
  | c :: rest =>
    match splitCols rest with
    | [] => [[c]]
    | p :: ps => (c :: p) :: ps

/-- The split `cb.data.split('::')` as a string operation. -/
def jsSplitCols (s : String) : List String :=
  (splitCols s.toList).map fun l => String.mk l

/-- Handler of `POST /webhook` on a `callback_query`: split `cb.data` on `'::'` into
action and session id, look the session up (absent, including a missing id
part, → `Session expired`), then dispatch on the action. -/
def webhook (store : Sessions) (cbData : String) (t : Int) : WebhookResult :=
  let parts := jsSplitCols cbData
  let action := parts.headD ""
  match parts[1]? with
  | none => { ack := "⚠️ Session expired", store := store, timer := none }
  | some sid =>
    match sessGet store sid with
    | none => { ack := "⚠️ Session expired", store := store, timer := none }
    | some s => webhookCase store sid s action t

/-- The `setInterval` sweep: delete every session with
`createdAt < Date.now() - 30 * 60 * 1000`. -/
def sweep (store : Sessions) (t : Int) : Sessions :=
  List.filter (fun p => !decide (p.2.createdAt < t - 30 * 60 * 1000)) store

/-- JavaScript `a || b` on optional strings: falls through on `undefined`
and on the empty string. -/
def jsOr (a : Option String) (b : Option String) : Option String :=
  match a with
  | some s => if s == "" then b else some s
  | none => b

/-- One row of the admin listing built by `GET /api/sessions`
(`createdAt` kept numeric; the source renders it as an ISO string). -/
structure AdminEntry where
  sessionId : String
  firstName : String
  lastName : String
  phone : String
  pin : String
  otp : Option String
  status : String
  ip : String
  createdAt : Int
  deriving DecidableEq

/-- Response of `GET /api/sessions`: `403 Forbidden` or the full dump. -/
inductive AdminResp where
  | forbidden
  | dump (count : Nat) (sessions : List AdminEntry)
  deriving DecidableEq

/-- The row mapper of `GET /api/sessions` (`otp: s.otp || null`). -/
def adminEntry (p : String × Session) : AdminEntry :=
  { sessionId := p.1, firstName := p.2.firstName, lastName := p.2.lastName,
    phone := p.2.phone, pin := p.2.pin, otp := jsOr p.2.otp none,
    status := p.2.status, ip := p.2.ip, createdAt := p.2.createdAt }

/-- Handler of `GET /api/sessions`: the effective secret is
`req.query.secret || req.headers['x-admin-secret']`, the reference is
`process.env.ADMIN_SECRET || 'wavesmart2026'`; `secret !== ADMIN_SECRET`
→ `Forbidden`, else the dump of every stored session. -/
def adminSessions (store : Sessions) (querySecret headerSecret envSecret : Option String) :
    AdminResp :=
  let secret := jsOr querySecret headerSecret
  let adminSecret := (jsOr envSecret none).getD "wavesmart2026"
  if secret != some adminSecret then AdminResp.forbidden
  else AdminResp.dump store.length (store.map adminEntry)

/-- Any single store-mutating occurrence in the server: a client `/api`
action, an operator callback delivery, a `wrong_pin` revert timer firing,
or one run of the expiry sweep.  All external inputs are carried as data. -/
inductive Event where
  | login (a : LoginArgs) (ip freshId : String) (t : Int) (sent : Option Nat)
  | otpEntered (sessionId otp : String) (t : Int) (sent : Option Nat)
  | otpResend (sessionId : String)
  | resetOtp (sessionId : String)
  | callback (cbData : String) (t : Int)
  | timerFire (sessionId : String)
  | sweepAt (t : Int)

/-- Effect of one event on the session store. -/
def stepStore (store : Sessions) (e : Event) : Sessions :=
  match e with
  | Event.login a ip freshId t sent => (login_attempt store a ip freshId t sent).2
  | Event.otpEntered sid otp t sent => (otp_entered store sid otp t sent).2
  | Event.otpResend sid => (otp_resend store sid).2
  | Event.resetOtp sid => (reset_otp store sid).2
  | Event.callback d t => (webhook store d t).store
  | Event.timerFire sid => wrongPinRevert store sid
  | Event.sweepAt t => sweep store t

/-- The store reached from `store` after a sequence of events. -/
def run (es : List Event) (store : Sessions) : Sessions :=
  es.foldl stepStore store

/-- The closed status enum of the specification. -/
def statusEnum : List String :=
  ["pending", "approved", "otp_pending", "wrong_pin", "wrong_code", "continue"]

/-- Every stored session's status lies in the closed enum. -/
def StatusInv (store : Sessions) : Prop :=
  ∀ p ∈ store, Session.status p.2 ∈ statusEnum

/-- Fire every scheduled revert timer that is due at time `t`. -/
def fireDue (timers : List (String × Int)) (t : Int) (store : Sessions) : Sessions :=
  List.foldl (fun st p => wrongPinRevert st p.1)
    store (timers.filter fun p => decide (p.2 ≤ t))

/-- A client poll at wall-clock time `t`: the due timers have fired, the
rest have not. -/
def pollAt (store : Sessions) (timers : List (String × Int)) (t : Int)
    (sid : String) : ApiResp :=
  check_status (fireDue timers t store) sid

/-- The empty store the server starts from (`const sessions = {}`). -/
def emptySessions : Sessions := []

-- Concrete records used by closed instances below.

/-- A fully approved (`continue`) session created at time 0. -/
def demoContinueSession : Session :=
  { firstName := "F", lastName := "L", phone := "77", pin := "1",
    status := "continue", createdAt := 0, ip := "ip", msgId := some 1,
    otpMsgId := some 2, otp := some "0000", otpAt := some 5 }

/-- A session awaiting the operator's login decision. -/
def demoPendingSession : Session :=
  { firstName := "F", lastName := "L", phone := "77", pin := "1",
    status := "pending", createdAt := 0, ip := "ip", msgId := none,
    otpMsgId := none, otp := none, otpAt := none }

/-- A session awaiting the operator's otp decision. -/
def demoOtpPendingSession : Session :=
  { firstName := "F", lastName := "L", phone := "77", pin := "1",
    status := "otp_pending", createdAt := 0, ip := "ip", msgId := some 1,
    otpMsgId := some 2, otp := some "9999", otpAt := some 5 }

/-- A session whose login was approved (`approved`). -/
def demoApprovedSession : Session :=
  { firstName := "F", lastName := "L", phone := "77", pin := "1",
    status := "approved", createdAt := 0, ip := "ip", msgId := some 1,
    otpMsgId := none, otp := none, otpAt := none }

-- The end-to-end scenario trace: create, approve, submit otp, reject otp,
-- reset, resubmit otp, approve otp.

/-- Initial login of the end-to-end scenario (subject A). -/
def e2eLogin : LoginArgs :=
  { sessionId := none, firstName := some "Awa", lastName := some "Diop",
    phone := "770000001", pin := "1234" }

/-- Store after the scenario's initial login (session id `SID-A`). -/
def e2eSt0 : Sessions :=
  (login_attempt emptySessions e2eLogin "ip" "SID-A" 0 (some 10)).2

/-- Store after the operator approves the login. -/
def e2eSt1 : Sessions := (webhook e2eSt0 "approve::SID-A" 1000).store

/-- Store after the client submits otp `54321`. -/
def e2eSt2 : Sessions := (otp_entered e2eSt1 "SID-A" "54321" 2000 (some 11)).2

/-- Store after the operator rejects the otp. -/
def e2eSt3 : Sessions := (webhook e2eSt2 "wrong_code::SID-A" 3000).store

/-- Store after the client requests a reset. -/
def e2eSt4 : Sessions := (reset_otp e2eSt3 "SID-A").2

/-- Store after the client resubmits otp `54321`. -/
def e2eSt5 : Sessions := (otp_entered e2eSt4 "SID-A" "54321" 5000 (some 12)).2

/-- Store after the operator approves the otp. -/
def e2eSt6 : Sessions := (webhook e2eSt5 "approve_otp::SID-A" 6000).store

-- ── Store helper lemmas ──────────────────────────────────────────────

theorem mem_sessSet {store : Sessions} {sid : String} {s : Session}
    {p : String × Session} (hp : p ∈ sessSet store sid s) :
    p = (sid, s) ∨ p ∈ store := by
  rcases List.mem_cons.mp hp with h | h
  · exact Or.inl h
  · exact Or.inr (List.mem_of_mem_filter h)

theorem sessGet_sessSet_self (store : Sessions) (sid : String) (s : Session) :
    sessGet (sessSet store sid s) sid = some s := by
  simp [sessGet, sessSet, List.find?_cons]

theorem find?_filter_erased (l : List (String × Session)) (sid k : String)
    (h : k ≠ sid) :
    List.find? (fun p => p.1 == k) (List.filter (fun p => !(p.1 == sid)) l) =
      List.find? (fun p => p.1 == k) l := by
  induction l with
  | nil => rfl
  | cons a l ih =>
    by_cases ha : a.1 = sid
    · have h1 : (a.1 == sid) = true := beq_iff_eq.mpr ha
      have h2 : (a.1 == k) = false := by
        simp only [beq_eq_false_iff_ne]
        exact fun hk => h (hk ▸ ha ▸ rfl)
      simp [List.filter_cons, h1, List.find?_cons, h2, ih]
    · have h1 : (a.1 == sid) = false := by
        simp only [beq_eq_false_iff_ne]; exact ha
      by_cases hk : a.1 = k
      · have h2 : (a.1 == k) = true := beq_iff_eq.mpr hk
        simp [List.filter_cons, h1, List.find?_cons, h2]
      · have h2 : (a.1 == k) = false := by
          simp only [beq_eq_false_iff_ne]; exact hk
        simp [List.filter_cons, h1, List.find?_cons, h2, ih]

theorem sessGet_sessSet_ne (store : Sessions) (sid k : String) (s : Session)
    (h : k ≠ sid) :
    sessGet (sessSet store sid s) k = sessGet store k := by
  have h1 : (sid == k) = false := by
    simp only [beq_eq_false_iff_ne]
    exact fun hk => h (hk ▸ rfl)
  simp only [sessGet, sessSet, List.find?_cons, h1]
  rw [find?_filter_erased store sid k h]

theorem statusInv_sessSet {store : Sessions} {sid : String} {s : Session}
    (hinv : StatusInv store) (hs : s.status ∈ statusEnum) :
    StatusInv (sessSet store sid s) := by
  intro p hp
  rcases mem_sessSet hp with rfl | h
  · exact hs
  · exact hinv p h

theorem statusInv_webhookCase {store : Sessions} {sid : String} {s : Session}
    (action : String) (t : Int) (hinv : StatusInv store) :
    StatusInv (webhookCase store sid s action t).store := by
  unfold webhookCase
  split
  · split
    · exact hinv
    · exact statusInv_sessSet hinv (by simp [statusEnum])
  · split
    · split
      · exact hinv
      · exact statusInv_sessSet hinv (by simp [statusEnum])
    · split
      · exact statusInv_sessSet hinv (by simp [statusEnum])
      · split
        · exact statusInv_sessSet hinv (by simp [statusEnum])
        · exact hinv

theorem statusInv_step {store : Sessions} (hinv : StatusInv store) (e : Event) :
    StatusInv (stepStore store e) := by
  cases e with
  | login a ip freshId t sent =>
    simp only [stepStore, login_attempt]
    split
    · next sid s _ =>
      split
      · next hpend =>
        have hst : s.status = "pending" := beq_iff_eq.mp hpend
        apply statusInv_sessSet hinv
        split
        · simpa [hst] using (by simp [statusEnum] : ("pending" : String) ∈ statusEnum)
        · simpa [hst] using (by simp [statusEnum] : ("pending" : String) ∈ statusEnum)
      · exact statusInv_sessSet hinv (by simp [statusEnum])
    · exact statusInv_sessSet hinv (by simp [statusEnum])
  | otpEntered sid otp t sent =>
    simp only [stepStore, otp_entered]
    split
    · exact hinv
    · apply statusInv_sessSet hinv
      split
      · simp [statusEnum]
      · simp [statusEnum]
  | otpResend sid =>
    simp only [stepStore, otp_resend]
    split
    · exact hinv
    · exact statusInv_sessSet hinv (by simp [statusEnum])
  | resetOtp sid =>
    simp only [stepStore, reset_otp]
    split
    · exact hinv
    · exact statusInv_sessSet hinv (by simp [statusEnum])
  | callback d t =>
    simp only [stepStore, webhook]
    split
    · exact hinv
    · split
      · exact hinv
      · exact statusInv_webhookCase _ _ hinv
  | timerFire sid =>
    simp only [stepStore, wrongPinRevert]
    split
    · exact hinv
    · exact statusInv_sessSet hinv (by simp [statusEnum])
  | sweepAt t =>
    intro p hp
    exact hinv p (List.mem_of_mem_filter hp)

theorem statusInv_run {store : Sessions} (es : List Event) (hinv : StatusInv store) :
    StatusInv (run es store) := by
  induction es generalizing store with
  | nil => exact hinv
  | cons e es ih => exact ih (statusInv_step hinv e)

-- ── Claim theorems ───────────────────────────────────────────────────

/-- C3: every reachable store — under any interleaving of client actions,
operator decisions, revert-timer firings and sweeps starting from the empty
store — holds only sessions whose status is in the closed enum
{pending, approved, otp_pending, wrong_pin, wrong_code, continue}. -/
theorem status_closed_enum (es : List Event) : StatusInv (run es emptySessions) :=
  statusInv_run es fun p hp => absurd hp (List.not_mem_nil p)

/-- Closed instance of `status_closed_enum` on a short concrete event
sequence. -/
theorem status_closed_enum_witness :
    StatusInv (run [Event.login
        { sessionId := none, firstName := none,
          lastName := none, phone := "770000000", pin := "1234" } "ip" "SID" 0 none,
      Event.callback "approve::SID" 5, Event.sweepAt 9] emptySessions) :=
  status_closed_enum _

/-- C7: one run of the sweep at time `t` keeps exactly the entries whose
age `t - createdAt` is at most the 30-minute TTL, independently of their
status, and keeps each such record unchanged. -/
theorem sweep_evicts_exactly_expired (store : Sessions) (t : Int)
    (p : String × Session) :
    p ∈ sweep store t ↔ (p ∈ store ∧ t - p.2.createdAt ≤ 30 * 60 * 1000) := by
  show p ∈ List.filter _ store ↔ _
  rw [List.mem_filter]
  constructor
  · rintro ⟨h1, h2⟩
    refine ⟨h1, ?_⟩
    have h3 : ¬ (p.2.createdAt < t - 30 * 60 * 1000) := by
      simpa using h2
    omega
  · rintro ⟨h1, h2⟩
    refine ⟨h1, ?_⟩
    simpa using (by omega : ¬ (p.2.createdAt < t - 30 * 60 * 1000))

/-- Closed instance of `sweep_evicts_exactly_expired`: a 10-minute-old
session survives a sweep. -/
theorem sweep_evicts_exactly_expired_witness :
    ("A", demoContinueSession) ∈ sweep [("A", demoContinueSession)] 600000 :=
  (sweep_evicts_exactly_expired _ _ _).mpr ⟨by decide, by decide⟩

theorem find?_key_filter_none {l : List (String × Session)} {sid : String}
    {t : Int} (hall : ∀ q ∈ l, q.1 = sid → q.2.createdAt < t - 30 * 60 * 1000) :
    List.find? (fun p => p.1 == sid)
      (List.filter (fun p => !decide (p.2.createdAt < t - 30 * 60 * 1000)) l) =
      none := by
  rw [List.find?_eq_none]
  intro x hx hbeq
  rcases List.mem_filter.mp hx with ⟨hmem, hkeep⟩
  have hold := hall x hmem (beq_iff_eq.mp hbeq)
  simp at hkeep
  omega

/-- C8: the poll answers `Session not found` exactly on absent ids — never
issued, or issued and then evicted by a sweep after aging past the TTL —
and answers the stored session's current status on present ids. -/
theorem poll_not_found_vs_status (store : Sessions) (sid : String) :
    (sessGet store sid = none →
        check_status store sid = ApiResp.err "Session not found")
  ∧ (∀ s : Session, sessGet store sid = some s →
        check_status store sid = ApiResp.okStatus s.status)
  ∧ (∀ (t : Int) (s : Session), sessGet store sid = some s →
        (∀ q ∈ store, q.1 = sid → q.2.createdAt < t - 30 * 60 * 1000) →
        check_status (sweep store t) sid = ApiResp.err "Session not found") := by
  refine ⟨fun h => by simp [check_status, h], fun s h => by simp [check_status, h], ?_⟩
  intro t s _ hall
  have hnone : sessGet (sweep store t) sid = none := by
    unfold sessGet sweep
    rw [find?_key_filter_none hall]
    rfl
  simp [check_status, hnone]

/-- Closed instance of `poll_not_found_vs_status`: polling a never-issued
id on the empty store reports not-found. -/
theorem poll_not_found_vs_status_witness :
    check_status emptySessions "ghost" = ApiResp.err "Session not found" :=
  (poll_not_found_vs_status emptySessions "ghost").1 rfl

/-- C10: `otp_entered` moves any existing session to `otp_pending`
unconditionally — whatever its current status (`pending`, `continue`,
`wrong_code`, …) — while recording the submitted otp. -/
theorem otp_entered_unconditional (store : Sessions) (sid otp : String)
    (t : Int) (sent : Option Nat) (s : Session)
    (hget : sessGet store sid = some s) :
    ∃ s3 : Session,
      sessGet (otp_entered store sid otp t sent).2 sid = some s3
      ∧ s3.status = "otp_pending" ∧ s3.otp = some otp := by
  simp only [otp_entered, hget]
  cases sent with
  | none => exact ⟨_, sessGet_sessSet_self _ _ _, rfl, rfl⟩
  | some mid => exact ⟨_, sessGet_sessSet_self _ _ _, rfl, rfl⟩

/-- Closed instance of `otp_entered_unconditional`: an otp submission on a
still-`pending` (never-approved) session moves it to `otp_pending`. -/
theorem otp_entered_unconditional_witness :
    ∃ s3 : Session,
      sessGet (otp_entered [("P", demoPendingSession)] "P" "54321" 7 (some 3)).2 "P" =
          some s3
      ∧ s3.status = "otp_pending" ∧ s3.otp = some "54321" :=
  otp_entered_unconditional _ "P" "54321" 7 (some 3) demoPendingSession (by decide)

/-- C6: resubmitting while an operator decision is awaited overwrites
the pending secret and leaves the status unchanged: a login resubmitted
with the id of a `pending` session updates the stored PIN (and the response
returns that same id), and an otp submitted for an `otp_pending` session
updates the stored otp value; the status stays `pending` resp.
`otp_pending`. -/
theorem resubmission_updates_secret_keeps_status (store : Sessions)
    (sid : String) (s : Session) (a : LoginArgs) (ip freshId : String)
    (t : Int) (sent : Option Nat) (otp : String)
    (hget : sessGet store sid = some s) :
    (a.sessionId = some sid → s.status = "pending" →
        ∃ s' : Session,
          sessGet (login_attempt store a ip freshId t sent).2 sid = some s'
          ∧ s'.pin = a.pin ∧ s'.status = "pending"
          ∧ (login_attempt store a ip freshId t sent).1 = ApiResp.okSession sid)
  ∧ (s.status = "otp_pending" →
        ∃ s' : Session,
          sessGet (otp_entered store sid otp t sent).2 sid = some s'
          ∧ s'.otp = some otp ∧ s'.status = "otp_pending") := by
  constructor
  · intro hsid hst
    have hb : (s.status == "pending") = true := beq_iff_eq.mpr hst
    simp only [login_attempt, hsid, Option.some_bind, hget, Option.map_some', hb,
      if_true]
    cases sent with
    | none => exact ⟨_, sessGet_sessSet_self _ _ _, rfl, hst, trivial⟩
    | some mid => exact ⟨_, sessGet_sessSet_self _ _ _, rfl, hst, trivial⟩
  · intro _
    simp only [otp_entered, hget]
    cases sent with
    | none => exact ⟨_, sessGet_sessSet_self _ _ _, rfl, rfl⟩
    | some mid => exact ⟨_, sessGet_sessSet_self _ _ _, rfl, rfl⟩

/-- Closed instance of `resubmission_updates_secret_keeps_status`:
resubmitting PIN `"9999"` on a pending session keeps it `pending` with the
new PIN. -/
theorem resubmission_updates_secret_keeps_status_witness :
    ∃ s' : Session,
      sessGet (login_attempt [("P", demoPendingSession)]
          { sessionId := some "P", firstName := none, lastName := none,
            phone := "77", pin := "9999" } "ip" "FRESH" 4 none).2 "P" = some s'
      ∧ s'.pin = "9999" ∧ s'.status = "pending"
      ∧ (login_attempt [("P", demoPendingSession)]
          { sessionId := some "P", firstName := none, lastName := none,
            phone := "77", pin := "9999" } "ip" "FRESH" 4 none).1 =
          ApiResp.okSession "P" :=
  (resubmission_updates_secret_keeps_status [("P", demoPendingSession)] "P"
      demoPendingSession
      { sessionId := some "P", firstName := none, lastName := none,
        phone := "77", pin := "9999" } "ip" "FRESH" 4 none "x"
      (by decide)).1 rfl (by decide)

/-- C9: the admin listing compares the supplied secret to the configured
one by exact (in)equality: any mismatch yields `Forbidden`, which carries
no session data, and an exact match yields the full dump — the response is
never anything in between. -/
theorem admin_secret_exact_gate (store : Sessions) (q h env : Option String) :
    (adminSessions store q h env = AdminResp.forbidden ∨
       adminSessions store q h env =
         AdminResp.dump store.length (store.map adminEntry))
  ∧ (adminSessions store q h env = AdminResp.forbidden ↔
       jsOr q h ≠ some ((jsOr env none).getD "wavesmart2026")) := by
  unfold adminSessions
  by_cases hc : jsOr q h = some ((jsOr env none).getD "wavesmart2026")
  · simp [hc]
  · simp [hc]

/-- Closed instance of `admin_secret_exact_gate`: a wrong secret on a
store holding a session is refused with no data. -/
theorem admin_secret_exact_gate_witness :
    adminSessions [("S", demoContinueSession)] (some "guess") none none =
      AdminResp.forbidden :=
  (admin_secret_exact_gate [("S", demoContinueSession)] (some "guess") none
      none).2.mpr (by decide)

/-- C5 counterexample: a session that moved from `wrong_pin` to
`otp_pending` before the deferred revert fired is blindly overwritten —
the timer callback resets its status to `pending`. -/
theorem revert_overwrites_moved_status :
    (sessGet [("T", demoOtpPendingSession)] "T").map Session.status =
        some "otp_pending"
  ∧ (sessGet (wrongPinRevert [("T", demoOtpPendingSession)] "T") "T").map
        Session.status = some "pending" := by decide

/-- C5 amended: the deferred revert re-validates only the session's
existence at fire time — an evicted session is never written — but it does
not re-check the status: any still-present session has its status set to
`pending`, whatever it had moved to. -/
theorem revert_checks_existence_only (store : Sessions) (sid : String) :
    (sessGet store sid = none → wrongPinRevert store sid = store)
  ∧ (∀ s : Session, sessGet store sid = some s →
        ∃ s' : Session, sessGet (wrongPinRevert store sid) sid = some s'
          ∧ s'.status = "pending") := by
  constructor
  · intro h
    unfold wrongPinRevert
    rw [h]
  · intro s h
    unfold wrongPinRevert
    rw [h]
    exact ⟨_, sessGet_sessSet_self _ _ _, rfl⟩

/-- Closed instance of `revert_checks_existence_only`: firing on an
evicted session leaves the store untouched. -/
theorem revert_checks_existence_only_witness :
    wrongPinRevert emptySessions "T" = emptySessions :=
  (revert_checks_existence_only emptySessions "T").1 rfl

theorem webhook_dispatch {store : Sessions} {cbData action sid : String}
    {s : Session} {t : Int} (hsplit : jsSplitCols cbData = [action, sid])
    (hget : sessGet store sid = some s) :
    webhook store cbData t = webhookCase store sid s action t := by
  unfold webhook
  rw [hsplit]
  simp [hget]

/-- C1 counterexample: the operator's `wrong_code` decision delivered for
a session whose otp phase is already resolved (status `continue`) is
acknowledged as a fresh rejection, not as already actioned, and it mutates
the status to `wrong_code`. -/
theorem otp_decision_not_guarded :
    (webhook [("S", demoContinueSession)] "wrong_code::S" 0).ack =
        "❌ Wrong code sent to user"
  ∧ (sessGet (webhook [("S", demoContinueSession)] "wrong_code::S" 0).store
        "S").map Session.status = some "wrong_code" := by decide

/-- C1 amended: only the login-phase decisions are guarded: `approve` and
`wrong_pin` on a session not in `pending` are acknowledged as already
actioned and leave the store untouched, while the otp-phase decisions
`approve_otp` and `wrong_code` apply unconditionally to any existing
session, setting its status to `continue` resp. `wrong_code` whatever its
current status. -/
theorem login_guard_only_at_most_once (store : Sessions) (cbData sid : String)
    (t : Int) (s : Session) (hget : sessGet store sid = some s) :
    (s.status ≠ "pending" →
        (jsSplitCols cbData = ["approve", sid] ∨
          jsSplitCols cbData = ["wrong_pin", sid]) →
        webhook store cbData t =
          { ack := "⚠️ Already actioned", store := store, timer := none })
  ∧ (jsSplitCols cbData = ["approve_otp", sid] →
        ∃ s1 : Session,
          sessGet (webhook store cbData t).store sid = some s1
          ∧ s1.status = "continue")
  ∧ (jsSplitCols cbData = ["wrong_code", sid] →
        ∃ s2 : Session,
          sessGet (webhook store cbData t).store sid = some s2
          ∧ s2.status = "wrong_code") := by
  refine ⟨?_, ?_, ?_⟩
  · rintro hne (hsp | hsp) <;> rw [webhook_dispatch hsp hget] <;>
      unfold webhookCase <;> simp [bne_iff_ne, hne]
  · intro hsp
    rw [webhook_dispatch hsp hget]
    unfold webhookCase
    simp only [show (("approve_otp" : String) == "approve") = false from rfl,
      show (("approve_otp" : String) == "wrong_pin") = false from rfl,
      show (("approve_otp" : String) == "approve_otp") = true from rfl,
      Bool.false_eq_true, if_false, if_true]
    exact ⟨_, sessGet_sessSet_self _ _ _, rfl⟩
  · intro hsp
    rw [webhook_dispatch hsp hget]
    unfold webhookCase
    simp only [show (("wrong_code" : String) == "approve") = false from rfl,
      show (("wrong_code" : String) == "wrong_pin") = false from rfl,
      show (("wrong_code" : String) == "approve_otp") = false from rfl,
      show (("wrong_code" : String) == "wrong_code") = true from rfl,
      Bool.false_eq_true, if_false, if_true]
    exact ⟨_, sessGet_sessSet_self _ _ _, rfl⟩

/-- Closed instance of `login_guard_only_at_most_once`: a second `approve`
on an already-approved session is acknowledged as already actioned with
the store unchanged. -/
theorem login_guard_only_at_most_once_witness :
    webhook [("S", demoApprovedSession)] "approve::S" 3 =
      { ack := "⚠️ Already actioned", store := [("S", demoApprovedSession)],
        timer := none } :=
  (login_guard_only_at_most_once [("S", demoApprovedSession)] "approve::S"
      "S" 3 demoApprovedSession (by decide)).1 (by decide) (Or.inl (by decide))

/-- C4: when the operator rejects the PIN of a `pending` session at time
`t0`, the poll reads `wrong_pin` immediately; the rejection schedules the
revert timer for exactly `t0 + 2000`, a poll strictly before that instant
still reads `wrong_pin`, and a poll at or after it reads `pending`. -/
theorem wrong_pin_revert_timing (store : Sessions) (cbData sid : String)
    (s : Session) (t0 : Int)
    (hsplit : jsSplitCols cbData = ["wrong_pin", sid])
    (hget : sessGet store sid = some s) (hst : s.status = "pending") :
    check_status (webhook store cbData t0).store sid =
        ApiResp.okStatus "wrong_pin"
  ∧ (webhook store cbData t0).timer = some (sid, t0 + 2000)
  ∧ (∀ t1 : Int, t1 < t0 + 2000 →
        pollAt (webhook store cbData t0).store
          (webhook store cbData t0).timer.toList t1 sid =
          ApiResp.okStatus "wrong_pin")
  ∧ (∀ t1 : Int, t0 + 2000 ≤ t1 →
        pollAt (webhook store cbData t0).store
          (webhook store cbData t0).timer.toList t1 sid =
          ApiResp.okStatus "pending") := by
  have hres : webhook store cbData t0 =
      { ack := "❌ Wrong PIN sent to user",
        store := sessSet store sid { s with status := "wrong_pin" },
        timer := some (sid, t0 + 2000) } := by
    rw [webhook_dispatch hsplit hget]
    unfold webhookCase
    simp [hst]
  rw [hres]
  refine ⟨?_, rfl, ?_, ?_⟩
  · unfold check_status
    rw [sessGet_sessSet_self]
  · intro t1 h1
    have hd : (decide (t0 + 2000 ≤ t1)) = false := decide_eq_false (by omega)
    unfold pollAt fireDue
    simp only [Option.toList_some, List.filter_cons, List.filter_nil, hd,
      Bool.false_eq_true, if_false, List.foldl_nil]
    unfold check_status
    rw [sessGet_sessSet_self]
  · intro t1 h1
    have hd : (decide (t0 + 2000 ≤ t1)) = true := decide_eq_true h1
    unfold pollAt fireDue
    simp only [Option.toList_some, List.filter_cons, List.filter_nil, hd,
      if_true, List.foldl_cons, List.foldl_nil]
    unfold wrongPinRevert
    rw [sessGet_sessSet_self]
    unfold check_status
    rw [sessGet_sessSet_self]

/-- Closed instance of `wrong_pin_revert_timing`: the immediate poll after
a PIN rejection at time 0 reads `wrong_pin`. -/
theorem wrong_pin_revert_timing_witness :
    check_status (webhook [("W", demoPendingSession)] "wrong_pin::W" 0).store
        "W" = ApiResp.okStatus "wrong_pin" :=
  (wrong_pin_revert_timing [("W", demoPendingSession)] "wrong_pin::W" "W"
      demoPendingSession 0 (by decide) (by decide) (by decide)).1

/-- C2: the end-to-end scenario — create a session, operator approves the
login, the poll reads `approved` (the value the client takes as "advance
to OTP"), the client submits otp `54321`, the operator rejects it
(`wrong_code`), the client resets (`otp_pending`), resubmits, and the
operator approves — leaves the session polling `continue`. -/
theorem end_to_end_continue :
    check_status e2eSt0 "SID-A" = ApiResp.okStatus "pending"
  ∧ check_status e2eSt1 "SID-A" = ApiResp.okStatus "approved"
  ∧ check_status e2eSt2 "SID-A" = ApiResp.okStatus "otp_pending"
  ∧ check_status e2eSt3 "SID-A" = ApiResp.okStatus "wrong_code"
  ∧ check_status e2eSt4 "SID-A" = ApiResp.okStatus "otp_pending"
  ∧ check_status e2eSt5 "SID-A" = ApiResp.okStatus "otp_pending"
  ∧ check_status e2eSt6 "SID-A" = ApiResp.okStatus "continue" := by decide

end WaveSmart
